import Mathlib

/-!
Shallow embedding of `bacpypes_helpers.py`: a BACnet client performing
single-shot property reads (via an IOCB bridge) and COV subscriptions
(registry of subscription contexts plus confirmed/unconfirmed dispatchers),
bounded by a watchdog-driven run loop.

Collaborator functions from the excluded bacpypes transport layer
(`get_datatype`, `cast_out`, the tag decode `app_to_object`) are passed as
function parameters.  Exceptions are modelled with `Except String`, the
event-loop stop signal and error-level log calls are counted explicitly,
and the transport's asynchronous resolution of an IOCB is an input.
-/

/-- A resolved IOCB as observed after `iocb.wait()`: the transport has set
`ioError`, `ioResponse`, or (anomalously) neither. -/
structure IOCB (ρ : Type) where
  ioError : Option String
  ioResponse : Option ρ
deriving DecidableEq

/-- Observable effects of one `_init_iocb` invocation: the returned value or
the propagated exception, the number of error-level log calls, and the
number of `deferred(stop)` signals issued. -/
structure BridgeOutcome (α : Type) where
  result : Except String (Option α)
  errorLogCount : Nat
  stops : Nat

/-- Effects of the body of the `with IocbHelper(...)` block, before the
context manager's exit handler runs. -/
structure BodyOutcome (α : Type) where
  result : Except String (Option α)
  errorLogCount : Nat
  stops : Nat

/-- `IocbHelper.__exit__`: whatever the body did (return or raise), the
context manager issues one `deferred(stop)` on the way out. -/
def withIocbHelper {α : Type} (body : BodyOutcome α) : BridgeOutcome α :=
  { result := body.result, errorLogCount := body.errorLogCount, stops := body.stops + 1 }

/-- `BACnetClient._init_iocb`: inside the `with IocbHelper` block, an error
resolution is logged and yields `None`; a response resolution is passed to
`successful_callback` (whose exception, if any, propagates); a resolution
with neither logs "something wrong" and yields `None`. -/
def init_iocb {ρ α : Type} (iocb : IOCB ρ) (successful_callback : ρ → Except String α) :
    BridgeOutcome α :=
  withIocbHelper <|
    match iocb.ioError with
    | some _ => { result := .ok none, errorLogCount := 1, stops := 0 }
    | none =>
      match iocb.ioResponse with
      | some apdu =>
        match successful_callback apdu with
        | .ok v => { result := .ok (some v), errorLogCount := 0, stops := 0 }
        | .error e => { result := .error e, errorLogCount := 0, stops := 0 }
      | none => { result := .ok none, errorLogCount := 1, stops := 0 }

/-- The fields of a ReadProperty response APDU that the client reads:
`apdu.objectIdentifier[0]` (the object type) and `apdu.propertyValue`
(the raw tagged value handed to `cast_out`). -/
structure ReadAPDU where
  objectType : String
  objectInstance : Nat
  propertyValue : String
deriving DecidableEq

/-- The callback built by `BACnetClient._do_read_property`: resolve the
datatype from the response's object type and the request's property
identifier; if none, raise `TypeError("unknown datatype")`; otherwise
return `apdu.propertyValue.cast_out(datatype)`. -/
def do_read_property_callback (get_datatype : String → String → Option String)
    (cast_out : String → String → String) (property_identifier : String)
    (apdu : ReadAPDU) : Except String String :=
  match get_datatype apdu.objectType property_identifier with
  | none => .error "unknown datatype"
  | some datatype => .ok (cast_out apdu.propertyValue datatype)

/-- A ReadPropertyRequest as constructed by `make_request_read_property`. -/
structure ReadPropertyRequest where
  objectIdentifier : String × Nat
  propertyIdentifier : String
  pduDestination : String
deriving DecidableEq

/-- `BACnetClient._do_read_property`: run the bridge on the IOCB for this
request with the read-property callback.  `resolve` is the transport's
asynchronous resolution of the submitted IOCB. -/
def do_read_property (get_datatype : String → String → Option String)
    (cast_out : String → String → String) (read_property_request : ReadPropertyRequest)
    (property_identifier : String) (resolve : ReadPropertyRequest → IOCB ReadAPDU) :
    BridgeOutcome String :=
  init_iocb (resolve read_property_request)
    (do_read_property_callback get_datatype cast_out property_identifier)

/-- `BACnetClient.make_request_read_property`: build the request, run the
worker's `_do_read_property` while the loop runs, and return the worker's
result (`future.result()` re-raises any exception to the caller). -/
def make_request_read_property (get_datatype : String → String → Option String)
    (cast_out : String → String → String) (device_address : String)
    (object_identifier : String × Nat) (property_identifier : String)
    (resolve : ReadPropertyRequest → IOCB ReadAPDU) : BridgeOutcome String :=
  do_read_property get_datatype cast_out
    { objectIdentifier := object_identifier, propertyIdentifier := property_identifier,
      pduDestination := device_address }
    property_identifier resolve

/-- The local address string built by `get_property_value`:
`"{}/24:47910".format(local_address)`. -/
def get_property_value_local_address (local_address : String) : String :=
  local_address ++ "/24:47910"

/-- `get_property_value`: parse the addresses, build the object identifier,
construct a fresh `BACnetClient` bound to the local address, and perform
the synchronous read. -/
def get_property_value (get_datatype : String → String → Option String)
    (cast_out : String → String → String) (local_address device_address : String)
    (object_type : String) (object_identifier : Nat) (property_identifier : String)
    (resolve : ReadPropertyRequest → IOCB ReadAPDU) : BridgeOutcome String :=
  make_request_read_property get_datatype cast_out device_address
    (object_type, object_identifier) property_identifier resolve

/-- C4: every invocation of the Request Lifecycle Bridge (`_init_iocb`,
entering `IocbHelper`) issues exactly one deferred stop signal before
returning or before propagating an exception, on every exit path:
resolved with error, resolved with response (callback succeeding or
raising), and resolved with neither. -/
theorem iocb_bridge_always_stops_once (ρ α : Type) (iocb : IOCB ρ)
    (successful_callback : ρ → Except String α) :
    (init_iocb iocb successful_callback).stops = 1 := by
  unfold init_iocb withIocbHelper
  cases iocb.ioError with
  | some e => rfl
  | none =>
    cases iocb.ioResponse with
    | none => rfl
    | some apdu =>
      cases h : successful_callback apdu with
      | ok v => simp [h]
      | error e => simp [h]

/-- C1: when the transport resolves the read transaction with a response
and `get_datatype` resolves a datatype for (object type, property
identifier), `get_property_value` returns exactly the response's property
value cast out with that datatype. -/
theorem read_property_response_returns_cast_value
    (get_datatype : String → String → Option String) (cast_out : String → String → String)
    (local_address device_address object_type : String) (object_identifier : Nat)
    (property_identifier : String) (resolve : ReadPropertyRequest → IOCB ReadAPDU)
    (apdu : ReadAPDU) (datatype : String)
    (hres : resolve { objectIdentifier := (object_type, object_identifier),
                      propertyIdentifier := property_identifier,
                      pduDestination := device_address }
            = { ioError := none, ioResponse := some apdu })
    (hdt : get_datatype apdu.objectType property_identifier = some datatype) :
    (get_property_value get_datatype cast_out local_address device_address object_type
        object_identifier property_identifier resolve).result
      = .ok (some (cast_out apdu.propertyValue datatype)) := by
  unfold get_property_value make_request_read_property do_read_property
  rw [hres]
  unfold init_iocb withIocbHelper do_read_property_callback
  simp [hdt]

/-- Witness for C1 at a concrete input: an analogValue read resolved with
value "72.5" and datatype "Real" returns the cast of "72.5" to "Real". -/
theorem read_property_response_returns_cast_value_witness :
    (get_property_value (fun _ _ => some "Real") (fun v d => v ++ " as " ++ d)
        "192.168.0.165" "192.168.0.165" "analogValue" 1 "presentValue"
        (fun _ => { ioError := none, ioResponse := some ⟨"analogValue", 1, "72.5"⟩ })).result
      = .ok (some "72.5 as Real") :=
  read_property_response_returns_cast_value (fun _ _ => some "Real")
    (fun v d => v ++ " as " ++ d) "192.168.0.165" "192.168.0.165" "analogValue" 1
    "presentValue" (fun _ => { ioError := none, ioResponse := some ⟨"analogValue", 1, "72.5"⟩ })
    ⟨"analogValue", 1, "72.5"⟩ "Real" rfl rfl

/-- One element of a COV notification's `listOfValues`: a property
identifier and the raw tagged value (`element.value.tagList[0]`). -/
structure Element where
  propertyIdentifier : String
  rawValue : String
deriving DecidableEq

/-- The fields of a COV notification APDU that the dispatchers read. -/
structure Notification where
  pduSource : String
  subscriberProcessIdentifier : Nat
  monitoredObjectIdentifier : String × Nat
  listOfValues : List Element
deriving DecidableEq

/-- One active COV subscription (`SubscriptionContext`), including the
append-only decoded value sequence `_value_list`. -/
structure SubscriptionContext where
  address : String
  monitoredObjectIdentifier : String × Nat
  subscriberProcessIdentifier : Nat
  propertyIdentifier : String
  issueConfirmedNotifications : Bool
  lifetime : Nat
  valueList : List String
deriving DecidableEq

/-- The subscription registry: the Python dict from subscriber process
identifier to `SubscriptionContext`, as an association list whose keys
are unique (every registry in this development is built by
`dictInsert` from `[]`). -/
abbrev Registry := List (Nat × SubscriptionContext)

/-- `dict.get(key, None)` on the registry. -/
def dictGet (d : Registry) (k : Nat) : Option SubscriptionContext :=
  match d with
  | [] => none
  | (j, v) :: rest => if j = k then some v else dictGet rest k

/-- `d[key] = value` on the registry: overwrite the existing entry for the
key if present, otherwise append a new entry. -/
def dictInsert (d : Registry) (k : Nat) (v : SubscriptionContext) : Registry :=
  match d with
  | [] => [(k, v)]
  | (j, w) :: rest => if j = k then (k, v) :: rest else (j, w) :: dictInsert rest k v

/-- `SubscriptionContext.__init__`: build the context with an empty value
list and immediately register it under its process identifier
(`self._subscription_context[self.subscriberProcessIdentifier] = self`),
returning the context and the updated registry. -/
def SubscriptionContext.init (address : String) (objid : String × Nat)
    (subscription_context : Registry) (property_identifier : String)
    (confirmed : Bool) (lifetime : Nat) (proc_id : Nat) :
    SubscriptionContext × Registry :=
  let ctx : SubscriptionContext :=
    { address := address, monitoredObjectIdentifier := objid,
      subscriberProcessIdentifier := proc_id, propertyIdentifier := property_identifier,
      issueConfirmedNotifications := confirmed, lifetime := lifetime, valueList := [] }
  (ctx, dictInsert subscription_context proc_id ctx)

/-- `SubscriptionContext.cov_notification`: for each element of the
notification's `listOfValues`, skip it unless its property identifier
equals the subscription's target property identifier, and otherwise append
`str(element.value.tagList[0].app_to_object().value)` to the value list,
in arrival order.  `app_to_object_str` is the collaborator decode. -/
def cov_notification (app_to_object_str : String → String) (ctx : SubscriptionContext)
    (apdu : Notification) : SubscriptionContext :=
  { ctx with
    valueList := ctx.valueList ++
      apdu.listOfValues.filterMap (fun element =>
        if element.propertyIdentifier = ctx.propertyIdentifier then
          some (app_to_object_str element.rawValue)
        else none) }

/-- Outcome of the confirmed-notification handler: either the raised
`ExecutionError('services', 'unknownSubscription')` (which the transport
turns into an error response to the notifier) or the `SimpleAckPDU`
response. -/
inductive ConfirmedResult where
  | executionErrorUnknownSubscription
  | simpleAck
deriving DecidableEq

/-- `SubscribeCOVApplication.do_ConfirmedCOVNotificationRequest`: look up
the subscriber process identifier; if there is no context, or the
notification's source differs from the context's destination address,
raise the unknown-subscription error; otherwise deliver the notification
to the context and respond with a simple acknowledgement. -/
def do_ConfirmedCOVNotificationRequest (app_to_object_str : String → String)
    (subscription_context : Registry) (apdu : Notification) :
    Registry × ConfirmedResult :=
  match dictGet subscription_context apdu.subscriberProcessIdentifier with
  | none => (subscription_context, .executionErrorUnknownSubscription)
  | some context =>
    if apdu.pduSource ≠ context.address then
      (subscription_context, .executionErrorUnknownSubscription)
    else
      (dictInsert subscription_context apdu.subscriberProcessIdentifier
        (cov_notification app_to_object_str context apdu), .simpleAck)

/-- Outcome of the unconfirmed-notification handler: silently dropped, or
processed; in neither case is any response sent. -/
inductive UnconfirmedResult where
  | droppedNoResponse
  | processedNoResponse
deriving DecidableEq

/-- `SubscribeCOVApplication.do_UnconfirmedCOVNotificationRequest`: same
lookup and address check as the confirmed handler, but a mismatch returns
silently and a match sends no acknowledgement. -/
def do_UnconfirmedCOVNotificationRequest (app_to_object_str : String → String)
    (subscription_context : Registry) (apdu : Notification) :
    Registry × UnconfirmedResult :=
  match dictGet subscription_context apdu.subscriberProcessIdentifier with
  | none => (subscription_context, .droppedNoResponse)
  | some context =>
    if apdu.pduSource ≠ context.address then
      (subscription_context, .droppedNoResponse)
    else
      (dictInsert subscription_context apdu.subscriberProcessIdentifier
        (cov_notification app_to_object_str context apdu), .processedNoResponse)

/-- An inbound notification during the listening window, distinguished as
confirmed or unconfirmed delivery. -/
inductive Inbound where
  | confirmedNotification (apdu : Notification)
  | unconfirmedNotification (apdu : Notification)
deriving DecidableEq

/-- The notification APDU carried by an inbound event. -/
def Inbound.apdu : Inbound → Notification
  | .confirmedNotification a => a
  | .unconfirmedNotification a => a

/-- Registry evolution for one inbound notification: the event loop calls
the matching handler of `SubscribeCOVApplication`. -/
def dispatch (app_to_object_str : String → String) (r : Registry) (i : Inbound) : Registry :=
  match i with
  | .confirmedNotification apdu => (do_ConfirmedCOVNotificationRequest app_to_object_str r apdu).1
  | .unconfirmedNotification apdu => (do_UnconfirmedCOVNotificationRequest app_to_object_str r apdu).1

/-- The local address string built by `do_cov_subscription`:
`"{}/24:47911".format(local_address)`. -/
def do_cov_subscription_local_address (local_address : String) : String :=
  local_address ++ "/24:47911"

/-- The default subscriber process identifier of `SubscriptionContext`
(`proc_id: int = 1000`), used by `do_cov_subscription`, which does not
pass one. -/
def default_proc_id : Nat := 1000

/-- `do_cov_subscription`: start from an empty registry, create and
register one `SubscriptionContext` for the target device and property,
run the loop for the duration while inbound notifications are dispatched
in arrival order, and return `context.values`.  The context object the
caller reads is the registry entry under the default process identifier
(in Python the two are aliases; only this one context is ever created). -/
def do_cov_subscription (app_to_object_str : String → String)
    (local_address device_address : String) (object_type : String)
    (object_identifier : Nat) (property_identifier : String) (confirmed : Bool)
    (duration : Nat) (inbound : List Inbound) : List String :=
  let registry0 : Registry := []
  let init := SubscriptionContext.init device_address (object_type, object_identifier)
    registry0 property_identifier confirmed duration default_proc_id
  let registry_final := inbound.foldl (dispatch app_to_object_str) init.2
  match dictGet registry_final default_proc_id with
  | some context => context.valueList
  | none => []

/-- Modelled from the spec's matching rule: the decoded strings a single
inbound notification contributes — all of its elements whose property
identifier equals the target, provided its process identifier matches the
registered one and its source equals the context's destination address,
and nothing otherwise. -/
def matched_values (app_to_object_str : String → String) (proc_id : Nat)
    (destination property_identifier : String) (i : Inbound) : List String :=
  if i.apdu.subscriberProcessIdentifier = proc_id ∧ i.apdu.pduSource = destination then
    i.apdu.listOfValues.filterMap (fun element =>
      if element.propertyIdentifier = property_identifier then
        some (app_to_object_str element.rawValue)
      else none)
  else []

/-- Modelled from the spec: the full value sequence of a session, the
concatenation of each inbound notification's matched values in arrival
order. -/
def spec_session_values (app_to_object_str : String → String) (proc_id : Nat)
    (destination property_identifier : String) : List Inbound → List String
  | [] => []
  | i :: rest =>
    matched_values app_to_object_str proc_id destination property_identifier i ++
      spec_session_values app_to_object_str proc_id destination property_identifier rest

/-- Modelled from the spec: the number of notification value elements whose
property identifier matches the target and which arrived in a matched
notification. -/
def count_matched_elements (proc_id : Nat) (destination property_identifier : String) :
    List Inbound → Nat
  | [] => 0
  | i :: rest =>
    (if i.apdu.subscriberProcessIdentifier = proc_id ∧ i.apdu.pduSource = destination then
      (i.apdu.listOfValues.filter (fun element =>
        element.propertyIdentifier = property_identifier)).length
    else 0) + count_matched_elements proc_id destination property_identifier rest

/-- Dispatching one inbound notification against a one-entry registry
appends exactly that notification's matched values (per the registered
context's address and target property) to the entry's value list. -/
lemma dispatch_singleton (f : String → String) (k : Nat) (c : SubscriptionContext)
    (i : Inbound) :
    dispatch f [(k, c)] i
      = [(k, { c with valueList := c.valueList ++
          matched_values f k c.address c.propertyIdentifier i })] := by
  cases i with
  | confirmedNotification apdu =>
    simp only [dispatch, do_ConfirmedCOVNotificationRequest, dictGet, Inbound.apdu,
      matched_values]
    by_cases hk : k = apdu.subscriberProcessIdentifier
    · by_cases ha : apdu.pduSource = c.address
      · simp [hk, ha, dictInsert, cov_notification]
      · simp [hk, ha]
    · have hk2 : ¬ apdu.subscriberProcessIdentifier = k := fun h => hk h.symm
      simp [hk, hk2]
  | unconfirmedNotification apdu =>
    simp only [dispatch, do_UnconfirmedCOVNotificationRequest, dictGet, Inbound.apdu,
      matched_values]
    by_cases hk : k = apdu.subscriberProcessIdentifier
    · by_cases ha : apdu.pduSource = c.address
      · simp [hk, ha, dictInsert, cov_notification]
      · simp [hk, ha]
    · have hk2 : ¬ apdu.subscriberProcessIdentifier = k := fun h => hk h.symm
      simp [hk, hk2]

/-- Folding the dispatcher over the inbound notifications of a session with
a one-entry registry accumulates the spec's matched-value sequence. -/
lemma foldl_dispatch_singleton (f : String → String) (k : Nat) :
    ∀ (inbound : List Inbound) (c : SubscriptionContext),
      inbound.foldl (dispatch f) [(k, c)]
        = [(k, { c with valueList := c.valueList ++
            spec_session_values f k c.address c.propertyIdentifier inbound })] := by
  intro inbound
  induction inbound with
  | nil => intro c; simp [spec_session_values]
  | cons i rest ih =>
    intro c
    rw [List.foldl_cons, dispatch_singleton, ih]
    simp [spec_session_values, List.append_assoc]

/-- The number of values a matched notification contributes equals the
number of its elements with the target property identifier. -/
lemma length_filterMap_decode (f : String → String) (pid : String) :
    ∀ l : List Element,
      (l.filterMap (fun element =>
        if element.propertyIdentifier = pid then some (f element.rawValue) else none)).length
      = (l.filter (fun element => element.propertyIdentifier = pid)).length := by
  intro l
  induction l with
  | nil => rfl
  | cons a t ih =>
    by_cases h : a.propertyIdentifier = pid <;>
      simp [List.filterMap_cons, List.filter_cons, h, ih]

/-- The spec's value sequence has exactly one entry per matched element. -/
lemma length_spec_session_values (f : String → String) (p : Nat) (dest pid : String) :
    ∀ inbound : List Inbound,
      (spec_session_values f p dest pid inbound).length
        = count_matched_elements p dest pid inbound := by
  intro inbound
  induction inbound with
  | nil => rfl
  | cons i rest ih =>
    simp only [spec_session_values, count_matched_elements, List.length_append, ih,
      matched_values]
    by_cases h : i.apdu.subscriberProcessIdentifier = p ∧ i.apdu.pduSource = dest <;>
      simp [h, length_filterMap_decode]

/-- C2: a `do_cov_subscription` session returns, in arrival order, exactly
the decoded strings of the notification elements whose property identifier
equals the target and which arrived in a notification matched to the
registered context (process identifier registered and source address equal
to the context's destination); the sequence's length is the count of such
elements, and mismatched notifications or elements contribute nothing and
raise nothing. -/
theorem cov_subscription_returns_matched_values (app_to_object_str : String → String)
    (local_address device_address object_type : String) (object_identifier : Nat)
    (property_identifier : String) (confirmed : Bool) (duration : Nat)
    (inbound : List Inbound) :
    do_cov_subscription app_to_object_str local_address device_address object_type
        object_identifier property_identifier confirmed duration inbound
      = spec_session_values app_to_object_str default_proc_id device_address
          property_identifier inbound
    ∧ (do_cov_subscription app_to_object_str local_address device_address object_type
        object_identifier property_identifier confirmed duration inbound).length
      = count_matched_elements default_proc_id device_address property_identifier inbound := by
  have key := foldl_dispatch_singleton app_to_object_str default_proc_id inbound
    { address := device_address,
      monitoredObjectIdentifier := (object_type, object_identifier),
      subscriberProcessIdentifier := default_proc_id,
      propertyIdentifier := property_identifier,
      issueConfirmedNotifications := confirmed, lifetime := duration,
      valueList := [] }
  have h1 : do_cov_subscription app_to_object_str local_address device_address object_type
      object_identifier property_identifier confirmed duration inbound
    = spec_session_values app_to_object_str default_proc_id device_address
        property_identifier inbound := by
    show (match dictGet (inbound.foldl (dispatch app_to_object_str)
        [(default_proc_id,
          { address := device_address,
            monitoredObjectIdentifier := (object_type, object_identifier),
            subscriberProcessIdentifier := default_proc_id,
            propertyIdentifier := property_identifier,
            issueConfirmedNotifications := confirmed, lifetime := duration,
            valueList := [] })]) default_proc_id with
      | some context => context.valueList
      | none => []) = _
    rw [key]
    simp [dictGet]
  refine ⟨h1, ?_⟩
  rw [h1]
  exact length_spec_session_values app_to_object_str default_proc_id device_address
    property_identifier inbound

/-- C3: an inbound COV notification whose process identifier is not
registered, or whose source address differs from the registered context's
destination address, leaves the registry (and so every context) unchanged;
the confirmed handler raises the unknown-subscription execution error and
the unconfirmed handler returns silently with no response. -/
theorem unmatched_notification_rejected_without_mutation (app_to_object_str : String → String)
    (r : Registry) (apdu : Notification)
    (h : dictGet r apdu.subscriberProcessIdentifier = none
       ∨ ∃ c, dictGet r apdu.subscriberProcessIdentifier = some c
            ∧ apdu.pduSource ≠ c.address) :
    do_ConfirmedCOVNotificationRequest app_to_object_str r apdu
      = (r, .executionErrorUnknownSubscription)
    ∧ do_UnconfirmedCOVNotificationRequest app_to_object_str r apdu
      = (r, .droppedNoResponse) := by
  rcases h with h | ⟨c, hc, hne⟩
  · exact ⟨by simp [do_ConfirmedCOVNotificationRequest, h],
      by simp [do_UnconfirmedCOVNotificationRequest, h]⟩
  · exact ⟨by simp [do_ConfirmedCOVNotificationRequest, hc, hne],
      by simp [do_UnconfirmedCOVNotificationRequest, hc, hne]⟩

/-- Witness for C3: a notification with unregistered process id 1000 hits
an empty registry; both handlers leave it unchanged, the confirmed one
raising and the unconfirmed one dropping. -/
theorem unmatched_notification_rejected_without_mutation_witness :
    (dictGet []
        (Notification.subscriberProcessIdentifier ⟨"10.0.0.9", 1000, ("analogValue", 1), []⟩)
       = none
     ∨ ∃ c, dictGet []
        (Notification.subscriberProcessIdentifier ⟨"10.0.0.9", 1000, ("analogValue", 1), []⟩)
       = some c ∧ Notification.pduSource ⟨"10.0.0.9", 1000, ("analogValue", 1), []⟩ ≠ c.address)
    ∧ (do_ConfirmedCOVNotificationRequest id [] ⟨"10.0.0.9", 1000, ("analogValue", 1), []⟩
        = ([], .executionErrorUnknownSubscription)
      ∧ do_UnconfirmedCOVNotificationRequest id [] ⟨"10.0.0.9", 1000, ("analogValue", 1), []⟩
        = ([], .droppedNoResponse)) :=
  ⟨Or.inl rfl,
    unmatched_notification_rejected_without_mutation id []
      ⟨"10.0.0.9", 1000, ("analogValue", 1), []⟩ (Or.inl rfl)⟩

/-- C8: creating two `SubscriptionContext`s against the same registry with
an identical subscriber process identifier makes the second registration
overwrite the first (last-write-wins): after both inits the registry maps
the identifier to the second context only, and a subsequent confirmed
notification carrying that identifier (from the second context's address)
is attributed to the second context, appending its matched values there. -/
theorem duplicate_proc_id_second_context_wins (app_to_object_str : String → String)
    (a1 a2 : String) (o1 o2 : String × Nat) (p1 p2 : String) (b1 b2 : Bool)
    (l1 l2 proc_id : Nat) (moid : String × Nat) (elems : List Element) :
    dictGet (SubscriptionContext.init a2 o2
        (SubscriptionContext.init a1 o1 [] p1 b1 l1 proc_id).2 p2 b2 l2 proc_id).2 proc_id
      = some (SubscriptionContext.init a2 o2
          (SubscriptionContext.init a1 o1 [] p1 b1 l1 proc_id).2 p2 b2 l2 proc_id).1
    ∧ do_ConfirmedCOVNotificationRequest app_to_object_str
        (SubscriptionContext.init a2 o2
          (SubscriptionContext.init a1 o1 [] p1 b1 l1 proc_id).2 p2 b2 l2 proc_id).2
        ⟨a2, proc_id, moid, elems⟩
      = ([(proc_id, cov_notification app_to_object_str
            (SubscriptionContext.init a2 o2
              (SubscriptionContext.init a1 o1 [] p1 b1 l1 proc_id).2 p2 b2 l2 proc_id).1
            ⟨a2, proc_id, moid, elems⟩)], .simpleAck) := by
  constructor
  · simp [SubscriptionContext.init, dictInsert, dictGet]
  · simp [SubscriptionContext.init, dictInsert, dictGet,
      do_ConfirmedCOVNotificationRequest]

/-- The watchdog's poll interval of `run_bacpypes_for_x_seconds`
(`time.sleep(1)`): one time unit. -/
def watchdog_poll_interval : Nat := 1

/-- `stop_after_x_seconds` inside `run_bacpypes_for_x_seconds`, in the
discrete-time model where the watchdog's k-th poll happens at elapsed time
k (the fixed 1-unit poll interval): polling from elapsed time `t`, keep
sleeping one unit until elapsed time first exceeds `x + 1`, then issue
`deferred(stop)`; the value returned is the elapsed time at which the stop
is requested, which is when `run()` returns. -/
def stop_after_x_seconds (x : Nat) (t : Nat) : Nat :=
  if x + 1 < t then t
  else stop_after_x_seconds x (t + 1)
termination_by x + 2 - t
decreasing_by omega

/-- `run_bacpypes_for_x_seconds`: the watchdog thread starts polling at
call start (elapsed time 0); the call returns when the loop is stopped,
i.e. at the watchdog's stop request (nothing else requests a stop during
the subscription session). -/
def run_bacpypes_elapsed (x : Nat) : Nat := stop_after_x_seconds x 0

/-- Polling from any elapsed time at most `x + 2` ends with the stop
requested exactly at elapsed time `x + 2`. -/
lemma stop_after_x_seconds_eq (x : Nat) : ∀ n t, t + n = x + 2 →
    stop_after_x_seconds x t = x + 2 := by
  intro n
  induction n with
  | zero =>
    intro t ht
    unfold stop_after_x_seconds
    have h : x + 1 < t := by omega
    simp [h]
    omega
  | succ m ih =>
    intro t ht
    unfold stop_after_x_seconds
    have h : ¬ x + 1 < t := by omega
    simp [h]
    exact ih (t + 1) (by omega)

/-- C5: in the discrete-time model of the watchdog, a
`subscribeCOV(duration=D)` session's elapsed time between call start and
return satisfies `D ≤ elapsed ≤ D + pollInterval + 1`; the stop time is a
function of the duration alone, so no notification or other event ends
the listening window early. -/
theorem cov_subscription_duration_bounds (duration : Nat) :
    duration ≤ run_bacpypes_elapsed duration
    ∧ run_bacpypes_elapsed duration ≤ duration + watchdog_poll_interval + 1 := by
  have h := stop_after_x_seconds_eq duration (duration + 2) 0 (by omega)
  unfold run_bacpypes_elapsed watchdog_poll_interval
  rw [h]
  omega

/-- C6: when the transport resolves the read transaction with an error —
and likewise when it resolves with neither an error nor a response — the
read returns no value (no exception reaches the caller) and logs exactly
one error; the embedding performs a single attempt, so the failure is
never retried. -/
theorem read_property_error_returns_none_logs_once
    (get_datatype : String → String → Option String) (cast_out : String → String → String)
    (local_address device_address object_type : String) (object_identifier : Nat)
    (property_identifier : String) (resolve : ReadPropertyRequest → IOCB ReadAPDU)
    (h : (resolve { objectIdentifier := (object_type, object_identifier),
                    propertyIdentifier := property_identifier,
                    pduDestination := device_address }).ioError.isSome
       ∨ ((resolve { objectIdentifier := (object_type, object_identifier),
                     propertyIdentifier := property_identifier,
                     pduDestination := device_address }).ioError = none
         ∧ (resolve { objectIdentifier := (object_type, object_identifier),
                      propertyIdentifier := property_identifier,
                      pduDestination := device_address }).ioResponse = none)) :
    (get_property_value get_datatype cast_out local_address device_address object_type
        object_identifier property_identifier resolve).result = .ok none
    ∧ (get_property_value get_datatype cast_out local_address device_address object_type
        object_identifier property_identifier resolve).errorLogCount = 1 := by
  unfold get_property_value make_request_read_property do_read_property init_iocb
    withIocbHelper
  rcases h with h | ⟨h1, h2⟩
  · obtain ⟨e, he⟩ := Option.isSome_iff_exists.mp h
    rw [he]
    exact ⟨rfl, rfl⟩
  · rw [h1, h2]
    exact ⟨rfl, rfl⟩

/-- Witness for C6: a transport error "timeout" yields no value and one
error log. -/
theorem read_property_error_returns_none_logs_once_witness :
    (((fun _ : ReadPropertyRequest => ({ ioError := some "timeout", ioResponse := none } : IOCB ReadAPDU))
        { objectIdentifier := ("analogValue", 1), propertyIdentifier := "presentValue",
          pduDestination := "192.168.0.165" }).ioError.isSome
     ∨ (((fun _ : ReadPropertyRequest => ({ ioError := some "timeout", ioResponse := none } : IOCB ReadAPDU))
        { objectIdentifier := ("analogValue", 1), propertyIdentifier := "presentValue",
          pduDestination := "192.168.0.165" }).ioError = none
       ∧ ((fun _ : ReadPropertyRequest => ({ ioError := some "timeout", ioResponse := none } : IOCB ReadAPDU))
        { objectIdentifier := ("analogValue", 1), propertyIdentifier := "presentValue",
          pduDestination := "192.168.0.165" }).ioResponse = none))
    ∧ ((get_property_value (fun _ _ => some "Real") (fun v d => v ++ " as " ++ d)
        "192.168.0.165" "192.168.0.165" "analogValue" 1 "presentValue"
        (fun _ => { ioError := some "timeout", ioResponse := none })).result = .ok none
      ∧ (get_property_value (fun _ _ => some "Real") (fun v d => v ++ " as " ++ d)
        "192.168.0.165" "192.168.0.165" "analogValue" 1 "presentValue"
        (fun _ => { ioError := some "timeout", ioResponse := none })).errorLogCount = 1) :=
  ⟨Or.inl rfl,
    read_property_error_returns_none_logs_once (fun _ _ => some "Real")
      (fun v d => v ++ " as " ++ d) "192.168.0.165" "192.168.0.165" "analogValue" 1
      "presentValue" (fun _ => { ioError := some "timeout", ioResponse := none })
      (Or.inl rfl)⟩

/-- C7: when the transport resolves a read with a response but no datatype
is resolvable for (object type, property identifier), the
`TypeError("unknown datatype")` raised in the callback propagates through
`future.result()` and surfaces across the façade to the caller; moreover
it is the only exception any read-façade call can surface. -/
theorem unknown_datatype_raises_and_is_only_exception
    (get_datatype : String → String → Option String) (cast_out : String → String → String)
    (local_address device_address object_type : String) (object_identifier : Nat)
    (property_identifier : String) (resolve : ReadPropertyRequest → IOCB ReadAPDU)
    (apdu : ReadAPDU)
    (hres : resolve { objectIdentifier := (object_type, object_identifier),
                      propertyIdentifier := property_identifier,
                      pduDestination := device_address }
            = { ioError := none, ioResponse := some apdu })
    (hdt : get_datatype apdu.objectType property_identifier = none) :
    (get_property_value get_datatype cast_out local_address device_address object_type
        object_identifier property_identifier resolve).result = .error "unknown datatype"
    ∧ ∀ (gd : String → String → Option String) (co : String → String → String)
        (la da ot : String) (oi : Nat) (pid : String)
        (res : ReadPropertyRequest → IOCB ReadAPDU) (e : String),
        (get_property_value gd co la da ot oi pid res).result = Except.error e →
        e = "unknown datatype" := by
  constructor
  · unfold get_property_value make_request_read_property do_read_property
    rw [hres]
    unfold init_iocb withIocbHelper do_read_property_callback
    simp [hdt]
  · intro gd co la da ot oi pid res e
    unfold get_property_value make_request_read_property do_read_property init_iocb
      withIocbHelper do_read_property_callback
    cases hE : (res ⟨(ot, oi), pid, da⟩).ioError with
    | some err =>
      exact fun h => Except.noConfusion h
    | none =>
      cases hR : (res ⟨(ot, oi), pid, da⟩).ioResponse with
      | none =>
        exact fun h => Except.noConfusion h
      | some a =>
        cases hD : gd a.objectType pid with
        | none =>
          simp [hD]
          exact fun h => h.symm
        | some dt =>
          simp [hD]

/-- Witness for C7: a response whose datatype cannot be resolved makes the
read surface the unknown-datatype error. -/
theorem unknown_datatype_raises_and_is_only_exception_witness :
    ((fun _ : ReadPropertyRequest =>
        ({ ioError := none, ioResponse := some ⟨"weirdObject", 3, "x"⟩ } : IOCB ReadAPDU))
      { objectIdentifier := ("weirdObject", 3), propertyIdentifier := "presentValue",
        pduDestination := "192.168.0.165" }
      = { ioError := none, ioResponse := some ⟨"weirdObject", 3, "x"⟩ })
    ∧ ((fun _ _ => (none : Option String)) (ReadAPDU.objectType ⟨"weirdObject", 3, "x"⟩)
        "presentValue" = none)
    ∧ ((get_property_value (fun _ _ => none) (fun v _ => v) "192.168.0.165" "192.168.0.165"
        "weirdObject" 3 "presentValue"
        (fun _ => { ioError := none, ioResponse := some ⟨"weirdObject", 3, "x"⟩ })).result
        = .error "unknown datatype"
      ∧ ∀ (gd : String → String → Option String) (co : String → String → String)
          (la da ot : String) (oi : Nat) (pid : String)
          (res : ReadPropertyRequest → IOCB ReadAPDU) (e : String),
          (get_property_value gd co la da ot oi pid res).result = Except.error e →
          e = "unknown datatype") :=
  ⟨rfl, rfl,
    unknown_datatype_raises_and_is_only_exception (fun _ _ => none) (fun v _ => v)
      "192.168.0.165" "192.168.0.165" "weirdObject" 3 "presentValue"
      (fun _ => { ioError := none, ioResponse := some ⟨"weirdObject", 3, "x"⟩ })
      ⟨"weirdObject", 3, "x"⟩ rfl rfl⟩

/-- The local addresses to which the repository's two façade operations
bind their clients: `get_property_value` and `do_cov_subscription` (the
only façade operations in the source). -/
def facade_local_addresses (local_address : String) : List String :=
  [get_property_value_local_address local_address,
   do_cov_subscription_local_address local_address]

/-- Counterexample to C9 as stated: across the façade operations the code
uses exactly two distinct local addresses (port suffixes 47910 and 47911),
not three — there is no third subscription role in the source. -/
theorem facade_ports_not_three :
    (facade_local_addresses "192.168.0.165").dedup.length = 2
    ∧ ¬ (facade_local_addresses "192.168.0.165").dedup.length = 3 := by
  decide

/-- Strings with distinct suffixes appended to a common base differ. -/
lemma append_ne_of_ne (a : String) {s t : String} (h : s ≠ t) : a ++ s ≠ a ++ t := by
  intro he
  apply h
  have hd := congrArg String.data he
  rw [String.data_append, String.data_append] at hd
  exact String.ext (List.append_cancel_left hd)

/-- C9 amended: each façade operation binds its client to a distinct fixed
local port suffix appended to the supplied local address — 47910 for the
plain-read role and 47911 for the single COV-subscription role — so the
façade uses exactly two distinct local ports, one per logical role. -/
theorem facade_ports_two_distinct :
    (∀ local_address : String,
      get_property_value_local_address local_address
        = local_address ++ ("/24:" ++ "47910")
      ∧ do_cov_subscription_local_address local_address
        = local_address ++ ("/24:" ++ "47911"))
    ∧ ("47910" : String) ≠ "47911"
    ∧ ∀ local_address : String, (facade_local_addresses local_address).Nodup := by
  refine ⟨fun a => ⟨?_, ?_⟩, by decide, fun a => ?_⟩
  · rw [show ("/24:" ++ "47910" : String) = "/24:47910" from rfl]; rfl
  · rw [show ("/24:" ++ "47911" : String) = "/24:47911" from rfl]; rfl
  · simp [facade_local_addresses, get_property_value_local_address,
      do_cov_subscription_local_address]
    exact append_ne_of_ne a (by decide)

/-- Python positional-argument binding for a function of two required
parameters: a call missing an argument raises TypeError at binding time,
before the body runs. -/
def bindCall2 {α β γ : Type} (f : α → β → γ) (a : Option α) (b : Option β) :
    Except String γ :=
  match a, b with
  | some x, some y => .ok (f x y)
  | _, _ => .error "TypeError: missing required positional argument"

/-- A ReadPropertyMultipleRequest as constructed by
`make_request_read_property_multiple`. -/
structure ReadPropertyMultipleRequest where
  pduDestination : String
deriving DecidableEq

/-- `BACnetClient.make_request_read_property_multiple`: builds the request
with the device destination, then submits
`executor.submit(self._do_read_property, request)` — a call of the
two-parameter `_do_read_property` with only the request argument, leaving
`property_identifier` unbound (`none`).  `future.result()` yields the
bridge outcome if the call bound, and re-raises the binding TypeError
otherwise; in the unbound case `_init_iocb` never runs, so no IOCB is
handed to the transport. -/
def make_request_read_property_multiple (get_datatype : String → String → Option String)
    (cast_out : String → String → String) (device_address : String)
    (resolve : ReadPropertyMultipleRequest → IOCB ReadAPDU) :
    Except String (BridgeOutcome String) :=
  bindCall2
    (fun (request : ReadPropertyMultipleRequest) (property_identifier : String) =>
      init_iocb (resolve request)
        (do_read_property_callback get_datatype cast_out property_identifier))
    (some { pduDestination := device_address })
    none

/-- C10: for every input, `make_request_read_property_multiple` never
returns a value: the submitted task calls `_do_read_property` without the
required `property_identifier` argument, so argument binding raises a
TypeError regardless of the transport's resolution — in particular before
any request reaches the transport. -/
theorem read_property_multiple_always_type_error
    (get_datatype : String → String → Option String) (cast_out : String → String → String)
    (device_address : String) (resolve : ReadPropertyMultipleRequest → IOCB ReadAPDU) :
    make_request_read_property_multiple get_datatype cast_out device_address resolve
      = .error "TypeError: missing required positional argument" := rfl
